import Mathlib

set_option maxRecDepth 4000

/-!
# Verification of the `mod_audio_stream` playback engine (NETPLAY fork)

Shallow embedding of the playback jitter-buffer / frame-delivery engine of
`src/mod_audio_stream_fork/mod_audio_stream.c` and of the G.711 μ-law encoder
`linear_to_ulaw`, together with theorems settling the specification claims.

Machine integers are modelled as `Int`/`Nat` with explicit two's-complement
wrap-around (`% 2 ^ 16`) at every point where the C code stores a value into an
`int16_t`.  C's arithmetic right shift on a (promoted) `int` is `Int`'s `>>>`
(floor shift); a C mask `v & m` on a possibly negative `int` is embedded as
`(v % 2 ^ k).toNat &&& m` — `Int.emod` with a positive modulus yields exactly
the low two's-complement bits, after which the masking happens on `Nat`.
-/

namespace AudioStream

/-! ## `linear_to_ulaw` (mod_audio_stream.c lines 37–75) -/

/-- `BIAS` constant of `linear_to_ulaw` (`0x84`, bias for linear code). -/
def BIAS : Int := 0x84

/-- `CLIP` constant of `linear_to_ulaw` (`32635`). -/
def CLIP : Int := 32635

/-- The 256-entry segment (exponent) lookup table `exp_lut` of
`linear_to_ulaw`, transcribed verbatim from the source. -/
def exp_lut : List Nat :=
  [0,0,1,1,2,2,2,2,3,3,3,3,3,3,3,3,
   4,4,4,4,4,4,4,4,4,4,4,4,4,4,4,4,
   5,5,5,5,5,5,5,5,5,5,5,5,5,5,5,5,
   5,5,5,5,5,5,5,5,5,5,5,5,5,5,5,5,
   6,6,6,6,6,6,6,6,6,6,6,6,6,6,6,6,
   6,6,6,6,6,6,6,6,6,6,6,6,6,6,6,6,
   6,6,6,6,6,6,6,6,6,6,6,6,6,6,6,6,
   6,6,6,6,6,6,6,6,6,6,6,6,6,6,6,6,
   7,7,7,7,7,7,7,7,7,7,7,7,7,7,7,7,
   7,7,7,7,7,7,7,7,7,7,7,7,7,7,7,7,
   7,7,7,7,7,7,7,7,7,7,7,7,7,7,7,7,
   7,7,7,7,7,7,7,7,7,7,7,7,7,7,7,7,
   7,7,7,7,7,7,7,7,7,7,7,7,7,7,7,7,
   7,7,7,7,7,7,7,7,7,7,7,7,7,7,7,7,
   7,7,7,7,7,7,7,7,7,7,7,7,7,7,7,7,
   7,7,7,7,7,7,7,7,7,7,7,7,7,7,7,7]

/-- Storing an integer into a C `int16_t`: two's-complement wrap-around into
`[-32768, 32767]`. -/
def toInt16 (x : Int) : Int := (x + 32768) % 65536 - 32768

/-- The set of values representable by `int16_t`. -/
def isInt16 (x : Int) : Prop := -32768 ≤ x ∧ x ≤ 32767

instance (x : Int) : Decidable (isInt16 x) := by unfold isInt16; infer_instance

/-- Embedding of `linear_to_ulaw` (mod_audio_stream.c lines 37–75).  The
argument is the value of the `int16_t` parameter `pcm_val`.  Every assignment
back into the `int16_t` variable goes through `toInt16`; in particular the
negation `pcm_val = -pcm_val` wraps, which is where `-32768` survives
un-clipped. -/
def linear_to_ulaw (pcm_val0 : Int) : Nat :=
  let sign : Nat := ((pcm_val0 >>> (8 : Nat)) % 256).toNat &&& 0x80
  let pcm_val : Int := if sign ≠ 0 then toInt16 (-pcm_val0) else pcm_val0
  let pcm_val : Int := if pcm_val > CLIP then CLIP else pcm_val
  let pcm_val : Int := toInt16 (pcm_val + BIAS)
  let exponent : Nat := exp_lut.getD (((pcm_val >>> (7 : Nat)) % 256).toNat &&& 0xFF) 0
  let mantissa : Nat := ((pcm_val >>> (exponent + 3)) % 16).toNat &&& 0x0F
  (sign ||| (exponent <<< 4) ||| mantissa) ^^^ 0xFF

/-- Modelled from the spec: the standard ITU-T G.711 μ-law encode reference as
spelled out in §4.3 — extract sign, negate negative inputs (exact integer
negation, no 16-bit wrap), clip the magnitude to 32635, add the bias `0x84`,
look up the exponent in the 8-bit segment table, extract the 4-bit mantissa,
combine sign/exponent/mantissa, and bitwise-complement the byte.  This is the
yardstick the spec demands `linear_to_ulaw` reproduce bit-exactly. -/
def ulaw_reference (pcm_val0 : Int) : Nat :=
  let sign : Nat := if pcm_val0 < 0 then 0x80 else 0
  let mag : Int := if pcm_val0 < 0 then -pcm_val0 else pcm_val0
  let mag : Int := if mag > CLIP then CLIP else mag
  let biased : Int := mag + BIAS
  let exponent : Nat := exp_lut.getD (((biased >>> (7 : Nat)) % 256).toNat &&& 0xFF) 0
  let mantissa : Nat := ((biased >>> (exponent + 3)) % 16).toNat &&& 0x0F
  (sign ||| (exponent <<< 4) ||| mantissa) ^^^ 0xFF

/-! ## Playback engine state and per-tick behaviour
(`capture_callback`, `SWITCH_ABC_TYPE_READ` branch, mod_audio_stream.c
lines 103–224; fields from `struct private_data` in mod_audio_stream.h) -/

/-- The fields of `struct private_data` that the playback tick reads or
writes.  The byte buffer `playback_buffer` is modelled as the FIFO list of
bytes currently in the `switch_buffer_t` (head = next byte to be read);
timestamps are abstract `Nat`s. -/
structure PrivateT where
  close_requested : Bool
  playback_active : Bool
  playback_is_pcmu : Bool
  warmup_threshold : Nat
  low_water_mark : Nat
  underrun_streak : Nat
  underrun_grace_frames : Nat
  buffer_underruns : Nat
  buffer_max_used : Nat
  first_audio_ts : Nat
  playback_start_ts : Nat
  playback_buffer : List Nat
  deriving Repr, DecidableEq

/-- `pcmu_frame_size` (160 bytes: PCMU @ 8kHz, 20ms). -/
def pcmu_frame_size : Nat := 160

/-- `l16_frame_size` (320 bytes: L16 @ 8kHz, 20ms). -/
def l16_frame_size : Nat := 320

/-- `frame_size = playback_is_pcmu ? pcmu_frame_size : l16_frame_size`. -/
def frame_size (t : PrivateT) : Nat :=
  if t.playback_is_pcmu then pcmu_frame_size else l16_frame_size

/-- `warmup_threshold = tech_pvt->warmup_threshold ? tech_pvt->warmup_threshold
: (frame_size * 40)` — the C ternary treats a zero field as "use default". -/
def effective_warmup_threshold (t : PrivateT) : Nat :=
  if t.warmup_threshold ≠ 0 then t.warmup_threshold else frame_size t * 40

/-- `low_water_mark = tech_pvt->low_water_mark ? tech_pvt->low_water_mark
: (frame_size * 20)`. -/
def effective_low_water_mark (t : PrivateT) : Nat :=
  if t.low_water_mark ≠ 0 then t.low_water_mark else frame_size t * 20

/-- Little-endian decoding of a byte buffer into `int16_t` samples, as
`switch_buffer_read` into an `int16_t l16_data[160]` array does on the target
platform; a trailing odd byte decodes to nothing. -/
def decodeL16 : List Nat → List Int
  | lo :: hi :: rest => toInt16 (lo + 256 * hi) :: decodeL16 rest
  | _ => []

/-- The silence frame built in the underrun-grace branch:
`memset(silence_pcmu, 0xFF, 160)`. -/
def silence_frame : List Nat := List.replicate 160 0xFF

/-- A frame handed to `switch_core_session_write_frame`: either real audio
(already companded PCMU bytes) or the synthesized μ-law silence frame. -/
inductive Emit where
  | real (frame : List Nat)
  | silence (frame : List Nat)
  deriving Repr, DecidableEq

/-- Warmup block (lines 140–154): if not `playback_active` and
`available >= warmup_threshold`, activate, zero the underrun streak and record
`playback_start_ts` (logging is not modelled). -/
def warmupStep (now : Nat) (t : PrivateT) : PrivateT :=
  let available := t.playback_buffer.length
  if t.playback_active = false ∧ available ≥ effective_warmup_threshold t then
    { t with playback_active := true, underrun_streak := 0,
             playback_start_ts := now }
  else t

/-- Emission block (lines 156–214).  `wc` is whether
`switch_core_session_get_write_codec` returned a non-null codec; the frame is
written only in that case, but the buffer is consumed regardless. -/
def emitStep (wc : Bool) (t : PrivateT) : PrivateT × Option Emit :=
  let available := t.playback_buffer.length
  if t.playback_active = true ∧ available ≥ frame_size t then
    let pcmu_data : List Nat :=
      if t.playback_is_pcmu then t.playback_buffer.take pcmu_frame_size
      else (decodeL16 (t.playback_buffer.take l16_frame_size)).map linear_to_ulaw
    let buf : List Nat :=
      if t.playback_is_pcmu then t.playback_buffer.drop pcmu_frame_size
      else t.playback_buffer.drop l16_frame_size
    ({ t with playback_buffer := buf, underrun_streak := 0 },
     if wc then some (Emit.real pcmu_data) else none)
  else if t.playback_active = true ∧ available < frame_size t then
    let t := { t with buffer_underruns := t.buffer_underruns + 1,
                      underrun_streak := t.underrun_streak + 1 }
    if t.underrun_streak ≤ t.underrun_grace_frames then
      (t, if wc then some (Emit.silence silence_frame) else none)
    else if available < effective_low_water_mark t then
      ({ t with playback_active := false, underrun_streak := 0 }, none)
    else
      (t, none)
  else
    (t, none)

/-- Watermark update (lines 216–218), applied to the `available` snapshot
taken at the top of the tick. -/
def maxUsedStep (available : Nat) (t : PrivateT) : PrivateT :=
  if available > t.buffer_max_used then { t with buffer_max_used := available }
  else t

/-- One `SWITCH_ABC_TYPE_READ` tick of `capture_callback` restricted to the
playback-injection block (lines 103–221): an early return when
`close_requested` is set, otherwise the warmup check, the emission state
machine and the watermark update, in source order, all against the single
`available` snapshot taken at the top. -/
def tick (wc : Bool) (now : Nat) (t : PrivateT) : PrivateT × Option Emit :=
  if t.close_requested then (t, none)
  else
    let available := t.playback_buffer.length
    let t1 := warmupStep now t
    let r := emitStep wc t1
    (maxUsedStep available r.1, r.2)

/-! ## Start-command validation (`stream_function`, lines 376–445) -/

/-- The three audio formats of mod_audio_stream.h
(`AUDIO_FORMAT_L16`/`AUDIO_FORMAT_PCMU`/`AUDIO_FORMAT_PCMA`). -/
inductive AudioFormat where
  | l16
  | pcmu
  | pcma
  deriving Repr, DecidableEq

/-- The validation chain guarding `start_capture` (lines 434–445):
`validate_ws_uri`, then `sampling % 8000 != 0`, then
`audio_format != AUDIO_FORMAT_L16 && sampling != 8000`; only if all pass is
`start_capture` (and through it `stream_session_init`, which creates the
buffers) invoked.  `none` models the rejecting branches, where `status`
remains `SWITCH_STATUS_FALSE`. -/
def start_decision (uri_valid : Bool) (sampling : Nat)
    (audio_format : AudioFormat) : Option (Nat × AudioFormat) :=
  if uri_valid = false then none
  else if sampling % 8000 ≠ 0 then none
  else if audio_format ≠ AudioFormat.l16 ∧ sampling ≠ 8000 then none
  else some (sampling, audio_format)

/-- The reply written by `stream_function` (lines 457–461): `+OK Success` only
when a status of `SWITCH_STATUS_SUCCESS` was produced, which for a start
command requires `start_decision` to have reached `start_capture` and
`start_capture` to have succeeded (`capture_ok`). -/
def start_reply (d : Option (Nat × AudioFormat)) (capture_ok : Bool) : String :=
  match d with
  | none => "-ERR Operation Failed"
  | some _ => if capture_ok then "+OK Success" else "-ERR Operation Failed"

/-! ## Helper lemmas about the tick components -/

theorem warmupStep_of_active (now : Nat) (t : PrivateT)
    (h : t.playback_active = true) : warmupStep now t = t := by
  simp [warmupStep, h]

theorem warmupStep_playback_buffer (now : Nat) (t : PrivateT) :
    (warmupStep now t).playback_buffer = t.playback_buffer := by
  simp only [warmupStep]; split <;> rfl

theorem warmupStep_playback_is_pcmu (now : Nat) (t : PrivateT) :
    (warmupStep now t).playback_is_pcmu = t.playback_is_pcmu := by
  simp only [warmupStep]; split <;> rfl

theorem frame_size_warmupStep (now : Nat) (t : PrivateT) :
    frame_size (warmupStep now t) = frame_size t := by
  rw [frame_size, frame_size, warmupStep_playback_is_pcmu]

theorem emitStep_inactive (wc : Bool) (u : PrivateT)
    (h : u.playback_active = false) : emitStep wc u = (u, none) := by
  rw [emitStep, if_neg (by simp [h]), if_neg (by simp [h])]

theorem emitStep_underrun (wc : Bool) (u : PrivateT)
    (ha : u.playback_active = true)
    (hu : u.playback_buffer.length < frame_size u) :
    emitStep wc u =
      (let u' : PrivateT :=
        { u with buffer_underruns := u.buffer_underruns + 1,
                 underrun_streak := u.underrun_streak + 1 }
       if u.underrun_streak + 1 ≤ u.underrun_grace_frames then
         (u', if wc then some (Emit.silence silence_frame) else none)
       else if u.playback_buffer.length < effective_low_water_mark u then
         ({ u' with playback_active := false, underrun_streak := 0 }, none)
       else (u', none)) := by
  rw [emitStep]
  rw [if_neg (by omega), if_pos ⟨ha, hu⟩]
  rfl

theorem emitStep_emit (wc : Bool) (u : PrivateT)
    (ha : u.playback_active = true)
    (hav : u.playback_buffer.length ≥ frame_size u) :
    emitStep wc u =
      ({ u with
          playback_buffer :=
            if u.playback_is_pcmu then u.playback_buffer.drop pcmu_frame_size
            else u.playback_buffer.drop l16_frame_size,
          underrun_streak := 0 },
       if wc then
         some (Emit.real
           (if u.playback_is_pcmu then u.playback_buffer.take pcmu_frame_size
            else (decodeL16 (u.playback_buffer.take l16_frame_size)).map
              linear_to_ulaw))
       else none) := by
  rw [emitStep, if_pos ⟨ha, hav⟩]

theorem maxUsedStep_playback_active (a : Nat) (u : PrivateT) :
    (maxUsedStep a u).playback_active = u.playback_active := by
  unfold maxUsedStep; split <;> rfl

theorem maxUsedStep_underrun_streak (a : Nat) (u : PrivateT) :
    (maxUsedStep a u).underrun_streak = u.underrun_streak := by
  unfold maxUsedStep; split <;> rfl

theorem maxUsedStep_buffer_underruns (a : Nat) (u : PrivateT) :
    (maxUsedStep a u).buffer_underruns = u.buffer_underruns := by
  unfold maxUsedStep; split <;> rfl

theorem maxUsedStep_playback_buffer (a : Nat) (u : PrivateT) :
    (maxUsedStep a u).playback_buffer = u.playback_buffer := by
  unfold maxUsedStep; split <;> rfl

theorem maxUsedStep_playback_is_pcmu (a : Nat) (u : PrivateT) :
    (maxUsedStep a u).playback_is_pcmu = u.playback_is_pcmu := by
  unfold maxUsedStep; split <;> rfl

theorem tick_of_open (wc : Bool) (now : Nat) (t : PrivateT)
    (hc : t.close_requested = false) :
    tick wc now t =
      (maxUsedStep t.playback_buffer.length (emitStep wc (warmupStep now t)).1,
       (emitStep wc (warmupStep now t)).2) := by
  rw [tick, if_neg (by simp [hc])]

theorem decodeL16_length : ∀ l : List Nat, (decodeL16 l).length = l.length / 2
  | [] => rfl
  | [_] => by simp [decodeL16]
  | _ :: _ :: rest => by
      simp only [decodeL16, List.length_cons, decodeL16_length rest]
      omega

theorem decodeL16_replicate_zero :
    ∀ n, decodeL16 (List.replicate (2 * n) 0) = List.replicate n 0
  | 0 => rfl
  | n + 1 => by
      have h2 : 2 * (n + 1) = 2 * n + 1 + 1 := by omega
      rw [h2, List.replicate_succ, List.replicate_succ]
      show toInt16 (0 + 256 * 0) :: decodeL16 (List.replicate (2 * n) 0) =
        List.replicate (n + 1) 0
      rw [decodeL16_replicate_zero n, List.replicate_succ]
      norm_num [toInt16]

/-! ## μ-law encoder versus the reference -/

theorem mask128_zero (n : Nat) (h : n < 128) : n &&& 128 = 0 := by
  have h2 := Nat.and_two_pow n 7
  norm_num at h2
  rw [h2, Nat.testBit_to_div_mod]
  have h3 : n / 128 = 0 := by omega
  simp [h3]

theorem mask128_one (n : Nat) (h1 : 128 ≤ n) (h2 : n ≤ 255) :
    n &&& 128 = 128 := by
  have h3 := Nat.and_two_pow n 7
  norm_num at h3
  rw [h3, Nat.testBit_to_div_mod]
  have h4 : n / 128 = 1 := by omega
  simp [h4]

/-- The `(pcm_val >> 8) & 0x80` sign extraction equals the sign test, for any
in-range `int16` input. -/
theorem sign_bits_eq (x : Int) (hlo : -32768 ≤ x) (hhi : x ≤ 32767) :
    ((x >>> (8 : Nat)) % 256).toNat &&& 0x80 = if x < 0 then 128 else 0 := by
  cases x with
  | ofNat a =>
      rw [Int.ofNat_eq_natCast] at hhi ⊢
      have ha : a ≤ 32767 := by exact_mod_cast hhi
      rw [show ((a:ℤ) >>> (8:Nat)) = ((a >>> 8 : ℕ) : ℤ) from rfl]
      have hdiv : a >>> 8 = a / 256 := by
        rw [Nat.shiftRight_eq_div_pow]
      have hb : a >>> 8 < 128 := by omega
      have hmod : (((a >>> 8 : ℕ) : ℤ) % (256:ℤ)).toNat = a >>> 8 := by omega
      rw [hmod, mask128_zero _ hb, if_neg (by omega)]
  | negSucc m =>
      have hm : m ≤ 32767 := by
        rw [Int.negSucc_eq] at hlo; omega
      rw [show ((Int.negSucc m) >>> (8:Nat)) = Int.negSucc (m >>> 8) from rfl]
      have hdiv : m >>> 8 = m / 256 := by
        rw [Nat.shiftRight_eq_div_pow]
      have hb : m >>> 8 ≤ 127 := by omega
      have hmod : ((Int.negSucc (m >>> 8)) % (256:ℤ)).toNat =
          255 - m >>> 8 := by
        rw [Int.negSucc_eq]
        omega
      rw [hmod, mask128_one _ (by omega) (by omega),
        if_pos (by rw [Int.negSucc_eq]; omega)]

/-- On every in-range input other than `-32768` no intermediate `int16_t`
store wraps, so the code computes exactly what the reference computes. -/
theorem ulaw_agrees_except_min (x : Int) (hx : isInt16 x)
    (hne : x ≠ -32768) : linear_to_ulaw x = ulaw_reference x := by
  obtain ⟨hlo, hhi⟩ := hx
  have hs := sign_bits_eq x hlo hhi
  simp only [linear_to_ulaw, ulaw_reference]
  rw [hs]
  by_cases hxneg : x < 0
  · simp only [if_pos hxneg]
    rw [if_pos (by norm_num : (128:ℕ) ≠ 0)]
    rw [show toInt16 (-x) = -x from by unfold toInt16; omega]
    rw [show toInt16 ((if -x > CLIP then CLIP else -x) + BIAS) =
        (if -x > CLIP then CLIP else -x) + BIAS from by
      unfold toInt16 CLIP BIAS; split_ifs <;> omega]
  · simp only [if_neg hxneg]
    rw [if_neg (by norm_num : ¬((0:ℕ) ≠ 0))]
    rw [show toInt16 ((if x > CLIP then CLIP else x) + BIAS) =
        (if x > CLIP then CLIP else x) + BIAS from by
      unfold toInt16 CLIP BIAS; split_ifs <;> omega]

/-! ## Claim theorems -/

/-- C1: the claim demands that `linear_to_ulaw` match the standard ITU-T
G.711 μ-law encode reference over the whole `int16` domain *including*
`-32768`.  At `pcm_val = -32768` the C code negates inside an `int16_t`, so
the magnitude wraps back to `-32768`, skips the clip to 32635, and the
function returns `0x7F` (μ-law "negative zero", i.e. silence), whereas the
reference — sign, exact negation, clip, bias, segment lookup, mantissa,
complement — returns `0x00` (maximum negative amplitude).  On every other
`int16` input the two functions agree, so the wrap at `-32768` is the sole
divergence. -/
theorem ulaw_min_int16_diverges :
    (isInt16 (-32768) ∧
     linear_to_ulaw (-32768) = 0x7F ∧
     ulaw_reference (-32768) = 0x00 ∧
     linear_to_ulaw (-32768) ≠ ulaw_reference (-32768)) ∧
    (∀ x : Int, isInt16 x → x ≠ -32768 →
      linear_to_ulaw x = ulaw_reference x) :=
  ⟨⟨by decide, by decide, by decide, by decide⟩, ulaw_agrees_except_min⟩

/-- C2: on a tick where the engine is active and fewer bytes than one frame
are buffered, the underrun counter and the underrun streak are incremented;
the engine pauses (`playback_active := false`, streak reset to 0) exactly
when the incremented streak exceeds `underrun_grace_frames` AND the available
bytes are below the low-water mark; while the incremented streak is within
the grace count it instead emits one frame of 160 bytes of value `0xFF`
without pausing. -/
theorem tick_underrun_grace_and_pause (wc : Bool) (now : Nat) (t : PrivateT)
    (hc : t.close_requested = false) (ha : t.playback_active = true)
    (hu : t.playback_buffer.length < frame_size t) (hw : wc = true) :
    (tick wc now t).1.buffer_underruns = t.buffer_underruns + 1 ∧
    ((tick wc now t).1.playback_active = false ↔
      (t.underrun_streak + 1 > t.underrun_grace_frames ∧
        t.playback_buffer.length < effective_low_water_mark t)) ∧
    ((tick wc now t).1.playback_active = false →
      (tick wc now t).1.underrun_streak = 0) ∧
    (t.underrun_streak + 1 ≤ t.underrun_grace_frames →
      (tick wc now t).1.playback_active = true ∧
      (tick wc now t).1.underrun_streak = t.underrun_streak + 1 ∧
      (tick wc now t).2 = some (Emit.silence silence_frame)) ∧
    silence_frame = List.replicate 160 0xFF := by
  subst hw
  have h1 : tick true now t =
      (maxUsedStep t.playback_buffer.length (emitStep true t).1,
       (emitStep true t).2) := by
    rw [tick, if_neg (by simp [hc]), warmupStep_of_active now t ha]
  rw [h1, emitStep_underrun true t ha hu]
  simp only [maxUsedStep_playback_active, maxUsedStep_underrun_streak,
    maxUsedStep_buffer_underruns]
  split_ifs with g1 g2
  · exact ⟨rfl, by simp [ha]; omega, by simp [ha], fun _ => ⟨ha, rfl, rfl⟩, rfl⟩
  · exact ⟨rfl, by simp; omega, fun _ => rfl, fun h => absurd h g1, rfl⟩
  · exact ⟨rfl, by simp [ha]; omega, by simp [ha], fun h => absurd h g1, rfl⟩

/-- C3: starting from an inactive engine, the warmup block activates the
engine exactly when the buffered byte count reaches the warmup threshold, and
on that transition it zeroes the underrun streak and records
`playback_start_ts`; the emission block never flips an inactive engine to
active, so the warmup block is the only 0→1 transition point in a tick, and
a full tick of an inactive engine ends active only if the threshold was
met. -/
theorem tick_warmup_activation (wc : Bool) (now : Nat) (t : PrivateT)
    (hi : t.playback_active = false) :
    ((warmupStep now t).playback_active = true ↔
      t.playback_buffer.length ≥ effective_warmup_threshold t) ∧
    (t.playback_buffer.length ≥ effective_warmup_threshold t →
      (warmupStep now t).underrun_streak = 0 ∧
      (warmupStep now t).playback_start_ts = now) ∧
    (∀ u : PrivateT, u.playback_active = false →
      (emitStep wc u).1.playback_active = false) ∧
    (t.close_requested = false → (tick wc now t).1.playback_active = true →
      t.playback_buffer.length ≥ effective_warmup_threshold t) := by
  have hemit : ∀ u : PrivateT, u.playback_active = false →
      (emitStep wc u).1.playback_active = false := by
    intro u hu
    rw [emitStep_inactive wc u hu]
    exact hu
  refine ⟨?_, ?_, hemit, ?_⟩
  · simp only [warmupStep]
    split_ifs with h
    · simpa using h.2
    · simp only [hi, Bool.false_eq_true, false_iff]
      intro hlen
      exact h ⟨hi, hlen⟩
  · intro hlen
    simp only [warmupStep]
    rw [if_pos ⟨hi, hlen⟩]
    exact ⟨rfl, rfl⟩
  · intro hc hact
    by_contra hlen
    push_neg at hlen
    have hw : warmupStep now t = t := by
      simp only [warmupStep]
      rw [if_neg (fun h => absurd h.2 (by omega))]
    rw [tick_of_open wc now t hc, hw] at hact
    simp only [maxUsedStep_playback_active] at hact
    rw [hemit t hi] at hact
    exact Bool.false_ne_true hact

/-- C4: whenever a tick emits a real-audio frame, the buffered byte count was
at least one frame size, and the tick consumed exactly one frame's worth of
bytes from the front of the playback buffer; in particular no real audio is
ever emitted while fewer bytes than a frame are available. -/
theorem tick_real_emission_needs_frame (wc : Bool) (now : Nat) (t : PrivateT) :
    ∀ data, (tick wc now t).2 = some (Emit.real data) →
      t.playback_buffer.length ≥ frame_size t ∧
      (tick wc now t).1.playback_buffer =
        t.playback_buffer.drop (frame_size t) ∧
      (tick wc now t).1.playback_buffer.length =
        t.playback_buffer.length - frame_size t := by
  intro data h
  by_cases hcl : t.close_requested = true
  · rw [tick, if_pos hcl] at h
    exact absurd h (by simp)
  have hc : t.close_requested = false := by
    simpa using hcl
  rw [tick_of_open wc now t hc] at h ⊢
  by_cases hact : (warmupStep now t).playback_active = true
  · by_cases hav : (warmupStep now t).playback_buffer.length ≥
        frame_size (warmupStep now t)
    · have hav' : t.playback_buffer.length ≥ frame_size t := by
        rwa [warmupStep_playback_buffer, frame_size_warmupStep] at hav
      simp only [emitStep_emit wc (warmupStep now t) hact hav,
        maxUsedStep_playback_buffer] at h ⊢
      refine ⟨hav', ?_⟩
      have hdrop :
          (if (warmupStep now t).playback_is_pcmu then
            (warmupStep now t).playback_buffer.drop pcmu_frame_size
           else (warmupStep now t).playback_buffer.drop l16_frame_size) =
          t.playback_buffer.drop (frame_size t) := by
        rw [warmupStep_playback_buffer, warmupStep_playback_is_pcmu, frame_size]
        split <;> rfl
      rw [hdrop]
      refine ⟨rfl, ?_⟩
      rw [List.length_drop]
    · push_neg at hav
      rw [emitStep_underrun wc (warmupStep now t) hact hav] at h
      split_ifs at h
      all_goals simp_all
  · have hact' : (warmupStep now t).playback_active = false := by
      simpa using hact
    rw [emitStep_inactive wc (warmupStep now t) hact'] at h
    exact absurd h (by simp)

/-- C5: the μ-law encoder is a pure function of its argument (equal inputs
give equal outputs), encoding the zero sample yields `0xFF`, and `0xFF` is
exactly the byte the engine fills silence frames with during underrun
grace. -/
theorem ulaw_pure_zero_silence :
    linear_to_ulaw 0 = 0xFF ∧
    silence_frame = List.replicate 160 (linear_to_ulaw 0) ∧
    (∀ x y : Int, x = y → linear_to_ulaw x = linear_to_ulaw y) := by
  refine ⟨by decide, ?_, fun x y h => h ▸ rfl⟩
  rw [show linear_to_ulaw 0 = 0xFF from by decide]
  rfl

/-- C7: with the per-session format flag fixed, a frame-emitting tick in
PCMU-passthrough mode consumes 160 bytes and emits them unconverted, while in
linear mode it consumes 320 buffer bytes (160 16-bit samples) and emits their
sample-by-sample μ-law conversion, a 160-byte frame; and no tick ever changes
the `playback_is_pcmu` flag. -/
theorem tick_format_mode_frames (wc : Bool) (now : Nat) (t : PrivateT)
    (hc : t.close_requested = false) (ha : t.playback_active = true)
    (hav : t.playback_buffer.length ≥ frame_size t) (hw : wc = true) :
    (t.playback_is_pcmu = true →
      frame_size t = 160 ∧
      (tick wc now t).2 = some (Emit.real (t.playback_buffer.take 160)) ∧
      (tick wc now t).1.playback_buffer = t.playback_buffer.drop 160) ∧
    (t.playback_is_pcmu = false →
      frame_size t = 320 ∧
      (tick wc now t).2 = some (Emit.real
        ((decodeL16 (t.playback_buffer.take 320)).map linear_to_ulaw)) ∧
      ((decodeL16 (t.playback_buffer.take 320)).map linear_to_ulaw).length
        = 160 ∧
      (tick wc now t).1.playback_buffer = t.playback_buffer.drop 320) ∧
    (∀ (wc2 : Bool) (now2 : Nat) (u : PrivateT),
      (tick wc2 now2 u).1.playback_is_pcmu = u.playback_is_pcmu) := by
  subst hw
  have hpres : ∀ (wc2 : Bool) (now2 : Nat) (u : PrivateT),
      (tick wc2 now2 u).1.playback_is_pcmu = u.playback_is_pcmu := by
    intro wc2 now2 u
    by_cases hcl : u.close_requested = true
    · rw [tick, if_pos hcl]
    · rw [tick_of_open wc2 now2 u (by simpa using hcl)]
      simp only [maxUsedStep_playback_is_pcmu]
      by_cases hact : (warmupStep now2 u).playback_active = true
      · by_cases hav2 : (warmupStep now2 u).playback_buffer.length ≥
            frame_size (warmupStep now2 u)
        · rw [emitStep_emit wc2 _ hact hav2]
          exact warmupStep_playback_is_pcmu now2 u
        · rw [emitStep_underrun wc2 _ hact (by omega)]
          split_ifs <;> exact warmupStep_playback_is_pcmu now2 u
      · rw [emitStep_inactive wc2 _ (by simpa using hact)]
        exact warmupStep_playback_is_pcmu now2 u
  rw [tick_of_open true now t hc, warmupStep_of_active now t ha,
    emitStep_emit true t ha hav]
  simp only [maxUsedStep_playback_buffer, if_true]
  refine ⟨?_, ?_, hpres⟩
  · intro hp
    rw [frame_size, if_pos hp]
    refine ⟨rfl, ?_, ?_⟩
    · rw [if_pos hp]; rfl
    · rw [if_pos hp]; rfl
  · intro hp
    have hp' : ¬ (t.playback_is_pcmu = true) := by simp [hp]
    rw [frame_size, if_neg hp']
    refine ⟨rfl, ?_, ?_, ?_⟩
    · rw [if_neg hp']; rfl
    · rw [List.length_map, decodeL16_length, List.length_take]
      have : t.playback_buffer.length ≥ 320 := by
        rw [frame_size, if_neg hp'] at hav
        exact hav
      omega
    · rw [if_neg hp']; rfl

/-- C8: with no override configured (both override fields zero), the warmup
threshold every tick works with is 40 frame sizes and the low-water mark is
20 frame sizes, and the warmup block activates exactly at 40 frame sizes of
buffered data. -/
theorem tick_default_thresholds (now : Nat) (t : PrivateT)
    (hw : t.warmup_threshold = 0) (hl : t.low_water_mark = 0) :
    effective_warmup_threshold t = frame_size t * 40 ∧
    effective_low_water_mark t = frame_size t * 20 ∧
    ((warmupStep now t).playback_active = true ↔
      (t.playback_active = true ∨
        t.playback_buffer.length ≥ frame_size t * 40)) := by
  have h1 : effective_warmup_threshold t = frame_size t * 40 := by
    simp [effective_warmup_threshold, hw]
  have h2 : effective_low_water_mark t = frame_size t * 20 := by
    simp [effective_low_water_mark, hl]
  refine ⟨h1, h2, ?_⟩
  simp only [warmupStep, h1]
  split_ifs with h
  · simp only [true_iff]
    exact Or.inr (h1 ▸ h.2)
  · cases hpa : t.playback_active with
    | true => simp
    | false =>
        simp only [hpa, Bool.false_eq_true, false_iff, false_or]
        intro hlen
        exact h ⟨hpa, h1 ▸ hlen⟩

/-- C9: a start command whose sample rate is not a multiple of 8000, or whose
audio format is companded (pcmu/pcma) at a rate other than 8000, takes a
rejecting branch of the validation chain: `start_capture` (and hence
`stream_session_init` and buffer creation) is never reached, and the command
reports `-ERR Operation Failed`. -/
theorem start_rejects_invalid_rate (v : Bool) (ok : Bool) (s : Nat)
    (f : AudioFormat)
    (h : s % 8000 ≠ 0 ∨ (f ≠ AudioFormat.l16 ∧ s ≠ 8000)) :
    start_decision v s f = none ∧
    start_reply (start_decision v s f) ok = "-ERR Operation Failed" := by
  have hd : start_decision v s f = none := by
    rw [start_decision]
    rcases h with h | h
    · split_ifs <;> simp_all
    · split_ifs <;> simp_all
  exact ⟨hd, by rw [hd, start_reply]⟩

/-- C10: the thresholds actually used by a tick are never zero: a zero
`warmup_threshold` or `low_water_mark` field is replaced by its default (40
or 20 frame sizes) each time the ternary is evaluated, so a session with zero
overrides behaves like one with no override at all, and an effective
threshold of zero cannot be configured. -/
theorem effective_thresholds_never_zero (t : PrivateT) :
    (effective_warmup_threshold t ≠ 0 ∧ effective_low_water_mark t ≠ 0) ∧
    (t.warmup_threshold = 0 →
      effective_warmup_threshold t = frame_size t * 40) ∧
    (t.low_water_mark = 0 →
      effective_low_water_mark t = frame_size t * 20) ∧
    frame_size t ≠ 0 := by
  have hfs : frame_size t ≠ 0 := by
    rw [frame_size]; split <;> simp [pcmu_frame_size, l16_frame_size]
  refine ⟨⟨?_, ?_⟩, ?_, ?_, hfs⟩
  · rw [effective_warmup_threshold]; split_ifs with h
    · exact h
    · omega
  · rw [effective_low_water_mark]; split_ifs with h
    · exact h
    · omega
  · intro h; simp [effective_warmup_threshold, h]
  · intro h; simp [effective_low_water_mark, h]

/-! ## Concrete states for counterexamples and witnesses -/

/-- A fresh L16 session (no overrides) that has buffered exactly 40 frames'
worth (12800 bytes) of linear PCM silence. -/
def c6_state : PrivateT :=
  { close_requested := false, playback_active := false,
    playback_is_pcmu := false, warmup_threshold := 0, low_water_mark := 0,
    underrun_streak := 0, underrun_grace_frames := 5, buffer_underruns := 0,
    buffer_max_used := 0, first_audio_ts := 0, playback_start_ts := 0,
    playback_buffer := List.replicate 12800 0 }

theorem c6_buffer_len : c6_state.playback_buffer.length = 12800 := by
  show (List.replicate 12800 (0:Nat)).length = 12800
  rw [List.length_replicate]

/-- An active PCMU-passthrough session with a full frame (160 bytes)
buffered. -/
def pcmu_run_state : PrivateT :=
  { close_requested := false, playback_active := true,
    playback_is_pcmu := true, warmup_threshold := 0, low_water_mark := 0,
    underrun_streak := 0, underrun_grace_frames := 2, buffer_underruns := 0,
    buffer_max_used := 0, first_audio_ts := 0, playback_start_ts := 0,
    playback_buffer := List.replicate 160 0x55 }

/-- An active PCMU-passthrough session with only 100 bytes buffered (an
underrun tick). -/
def pcmu_starved_state : PrivateT :=
  { close_requested := false, playback_active := true,
    playback_is_pcmu := true, warmup_threshold := 0, low_water_mark := 0,
    underrun_streak := 0, underrun_grace_frames := 2, buffer_underruns := 0,
    buffer_max_used := 0, first_audio_ts := 0, playback_start_ts := 0,
    playback_buffer := List.replicate 100 0x55 }

/-- An inactive PCMU session with a small configured warmup threshold that
its 4 buffered bytes already meet. -/
def warm_ready_state : PrivateT :=
  { close_requested := false, playback_active := false,
    playback_is_pcmu := true, warmup_threshold := 4, low_water_mark := 0,
    underrun_streak := 7, underrun_grace_frames := 2, buffer_underruns := 0,
    buffer_max_used := 0, first_audio_ts := 0, playback_start_ts := 0,
    playback_buffer := List.replicate 4 0x55 }

/-- C6 counterexample: the claim says a session in warmup with exactly 40
frames' worth (12800 bytes) of linear PCM buffered produces no output on a
tick and activates only upon reaching 41 frames.  On the code, a tick at
exactly 40 frames already activates the engine (the guard is
`available >= warmup_threshold`) and emits a real frame. -/
theorem c6_counterexample :
    c6_state.playback_active = false ∧
    c6_state.warmup_threshold = 0 ∧
    c6_state.playback_is_pcmu = false ∧
    c6_state.playback_buffer.length = l16_frame_size * 40 ∧
    (tick true 0 c6_state).1.playback_active = true ∧
    (tick true 0 c6_state).2 = some (Emit.real (List.replicate 160 0xFF)) := by
  have hw : warmupStep 0 c6_state =
      { c6_state with playback_active := true, underrun_streak := 0,
                      playback_start_ts := 0 } := by
    simp only [warmupStep]
    rw [if_pos ⟨rfl, by
      rw [c6_buffer_len]
      norm_num [effective_warmup_threshold, c6_state, frame_size,
        l16_frame_size]⟩]
  have ht : tick true 0 c6_state =
      (maxUsedStep c6_state.playback_buffer.length
        (emitStep true (warmupStep 0 c6_state)).1,
       (emitStep true (warmupStep 0 c6_state)).2) :=
    tick_of_open true 0 c6_state rfl
  have he := emitStep_emit true (warmupStep 0 c6_state)
    (by rw [hw]) (by
      rw [warmupStep_playback_buffer, frame_size_warmupStep, c6_buffer_len]
      norm_num [c6_state, frame_size, l16_frame_size])
  refine ⟨rfl, rfl, rfl,
    by rw [c6_buffer_len]; norm_num [l16_frame_size], ?_, ?_⟩
  · rw [ht]
    simp only [maxUsedStep_playback_active, he]
    rw [hw]
  · rw [ht]
    simp only [he, if_true]
    have hp : (warmupStep 0 c6_state).playback_is_pcmu = false := by
      rw [hw]; rfl
    rw [hp]
    simp only [Bool.false_eq_true, if_false]
    rw [warmupStep_playback_buffer]
    show some (Emit.real ((decodeL16
      ((List.replicate 12800 0).take l16_frame_size)).map linear_to_ulaw)) = _
    rw [List.take_replicate]
    have hmin : min l16_frame_size 12800 = 2 * 160 := by
      norm_num [l16_frame_size]
    rw [hmin, decodeL16_replicate_zero, List.map_replicate,
      show linear_to_ulaw 0 = 0xFF from by decide]

/-- C6 (amended): with the default L16 configuration, an inactive session
activates and emits a real frame on the first tick at which at least 40
frames' worth (12800 bytes) is buffered — i.e. already at exactly 40 frames —
and produces no output only while fewer than 40 frames' worth is buffered. -/
theorem tick_warmup_activates_at_threshold (wc : Bool) (now : Nat)
    (t : PrivateT) (hc : t.close_requested = false)
    (hi : t.playback_active = false) (hp : t.playback_is_pcmu = false)
    (hw : t.warmup_threshold = 0) :
    (t.playback_buffer.length ≥ l16_frame_size * 40 →
      (tick wc now t).1.playback_active = true ∧
      (wc = true → ∃ data, (tick wc now t).2 = some (Emit.real data))) ∧
    (t.playback_buffer.length < l16_frame_size * 40 →
      (tick wc now t).1.playback_active = false ∧
      (tick wc now t).2 = none) := by
  have heff : effective_warmup_threshold t = l16_frame_size * 40 := by
    simp [effective_warmup_threshold, hw, frame_size, hp]
  have hfs : frame_size t = l16_frame_size := by
    simp [frame_size, hp]
  constructor
  · intro hlen
    have hwarm : warmupStep now t =
        { t with playback_active := true, underrun_streak := 0,
                 playback_start_ts := now } := by
      simp only [warmupStep]
      rw [if_pos ⟨hi, heff ▸ hlen⟩]
    have hav : (warmupStep now t).playback_buffer.length ≥
        frame_size (warmupStep now t) := by
      rw [warmupStep_playback_buffer, frame_size_warmupStep, hfs]
      have : l16_frame_size ≤ l16_frame_size * 40 := by
        norm_num [l16_frame_size]
      omega
    have he := emitStep_emit wc (warmupStep now t) (by rw [hwarm]) hav
    rw [tick_of_open wc now t hc]
    constructor
    · simp only [maxUsedStep_playback_active, he]
      rw [hwarm]
    · intro hwc
      subst hwc
      simp only [he, if_true]
      exact ⟨_, rfl⟩
  · intro hlen
    have hwarm : warmupStep now t = t := by
      simp only [warmupStep]
      rw [if_neg (fun hcon => by rw [heff] at hcon; omega)]
    rw [tick_of_open wc now t hc, hwarm, emitStep_inactive wc t hi]
    exact ⟨by simp only [maxUsedStep_playback_active]; exact hi, rfl⟩

/-- Witness for the amended C6 theorem at the concrete 40-frame state. -/
theorem tick_warmup_activates_at_threshold_witness :
    (tick true 0 c6_state).1.playback_active = true ∧
    (∃ data, (tick true 0 c6_state).2 = some (Emit.real data)) := by
  have h := (tick_warmup_activates_at_threshold true 0 c6_state rfl rfl rfl
    rfl).1 (by rw [c6_buffer_len]; norm_num [l16_frame_size])
  exact ⟨h.1, h.2 rfl⟩

/-- Witness for C1 instantiating the agreement clause at a concrete
sample. -/
theorem ulaw_min_int16_diverges_witness :
    linear_to_ulaw 1000 = ulaw_reference 1000 :=
  ulaw_min_int16_diverges.2 1000 (by decide) (by decide)

/-- Witness for C2 at a concrete starved active PCMU state. -/
theorem tick_underrun_grace_and_pause_witness :
    (tick true 5 pcmu_starved_state).1.buffer_underruns =
      pcmu_starved_state.buffer_underruns + 1 ∧
    ((tick true 5 pcmu_starved_state).1.playback_active = false ↔
      (pcmu_starved_state.underrun_streak + 1 >
        pcmu_starved_state.underrun_grace_frames ∧
        pcmu_starved_state.playback_buffer.length <
          effective_low_water_mark pcmu_starved_state)) ∧
    ((tick true 5 pcmu_starved_state).1.playback_active = false →
      (tick true 5 pcmu_starved_state).1.underrun_streak = 0) ∧
    (pcmu_starved_state.underrun_streak + 1 ≤
        pcmu_starved_state.underrun_grace_frames →
      (tick true 5 pcmu_starved_state).1.playback_active = true ∧
      (tick true 5 pcmu_starved_state).1.underrun_streak =
        pcmu_starved_state.underrun_streak + 1 ∧
      (tick true 5 pcmu_starved_state).2 =
        some (Emit.silence silence_frame)) ∧
    silence_frame = List.replicate 160 0xFF :=
  tick_underrun_grace_and_pause true 5 pcmu_starved_state rfl rfl
    (by decide) rfl

/-- Witness for C3 at a concrete inactive state meeting its threshold. -/
theorem tick_warmup_activation_witness :
    ((warmupStep 9 warm_ready_state).playback_active = true ↔
      warm_ready_state.playback_buffer.length ≥
        effective_warmup_threshold warm_ready_state) ∧
    (warm_ready_state.playback_buffer.length ≥
        effective_warmup_threshold warm_ready_state →
      (warmupStep 9 warm_ready_state).underrun_streak = 0 ∧
      (warmupStep 9 warm_ready_state).playback_start_ts = 9) ∧
    (∀ u : PrivateT, u.playback_active = false →
      (emitStep true u).1.playback_active = false) ∧
    (warm_ready_state.close_requested = false →
      (tick true 9 warm_ready_state).1.playback_active = true →
      warm_ready_state.playback_buffer.length ≥
        effective_warmup_threshold warm_ready_state) :=
  tick_warmup_activation true 9 warm_ready_state rfl

/-- Witness for C4 at a concrete emitting PCMU state. -/
theorem tick_real_emission_needs_frame_witness :
    pcmu_run_state.playback_buffer.length ≥ frame_size pcmu_run_state ∧
    (tick true 0 pcmu_run_state).1.playback_buffer =
      pcmu_run_state.playback_buffer.drop (frame_size pcmu_run_state) ∧
    (tick true 0 pcmu_run_state).1.playback_buffer.length =
      pcmu_run_state.playback_buffer.length - frame_size pcmu_run_state :=
  tick_real_emission_needs_frame true 0 pcmu_run_state
    (List.replicate 160 0x55) (by decide)

/-- Witness for C5 instantiating the purity clause at a concrete sample. -/
theorem ulaw_pure_zero_silence_witness :
    linear_to_ulaw 7 = linear_to_ulaw 7 :=
  ulaw_pure_zero_silence.2.2 7 7 rfl

/-- Witness for C7 at a concrete emitting PCMU state. -/
theorem tick_format_mode_frames_witness :
    (pcmu_run_state.playback_is_pcmu = true →
      frame_size pcmu_run_state = 160 ∧
      (tick true 0 pcmu_run_state).2 =
        some (Emit.real (pcmu_run_state.playback_buffer.take 160)) ∧
      (tick true 0 pcmu_run_state).1.playback_buffer =
        pcmu_run_state.playback_buffer.drop 160) ∧
    (pcmu_run_state.playback_is_pcmu = false →
      frame_size pcmu_run_state = 320 ∧
      (tick true 0 pcmu_run_state).2 = some (Emit.real
        ((decodeL16 (pcmu_run_state.playback_buffer.take 320)).map
          linear_to_ulaw)) ∧
      ((decodeL16 (pcmu_run_state.playback_buffer.take 320)).map
        linear_to_ulaw).length = 160 ∧
      (tick true 0 pcmu_run_state).1.playback_buffer =
        pcmu_run_state.playback_buffer.drop 320) ∧
    (∀ (wc2 : Bool) (now2 : Nat) (u : PrivateT),
      (tick wc2 now2 u).1.playback_is_pcmu = u.playback_is_pcmu) :=
  tick_format_mode_frames true 0 pcmu_run_state rfl rfl (by decide) rfl

/-- Witness for C8 at a concrete state with no overrides. -/
theorem tick_default_thresholds_witness :
    effective_warmup_threshold pcmu_starved_state =
      frame_size pcmu_starved_state * 40 ∧
    effective_low_water_mark pcmu_starved_state =
      frame_size pcmu_starved_state * 20 ∧
    ((warmupStep 3 pcmu_starved_state).playback_active = true ↔
      (pcmu_starved_state.playback_active = true ∨
        pcmu_starved_state.playback_buffer.length ≥
          frame_size pcmu_starved_state * 40)) :=
  tick_default_thresholds 3 pcmu_starved_state rfl rfl

/-- Witness for C9 at a concrete invalid sample rate. -/
theorem start_rejects_invalid_rate_witness :
    start_decision true 12000 AudioFormat.l16 = none ∧
    start_reply (start_decision true 12000 AudioFormat.l16) false =
      "-ERR Operation Failed" :=
  start_rejects_invalid_rate true false 12000 AudioFormat.l16 (by decide)

/-- Witness for C10 at a concrete state with zero override fields. -/
theorem effective_thresholds_never_zero_witness :
    (effective_warmup_threshold pcmu_starved_state ≠ 0 ∧
      effective_low_water_mark pcmu_starved_state ≠ 0) ∧
    (pcmu_starved_state.warmup_threshold = 0 →
      effective_warmup_threshold pcmu_starved_state =
        frame_size pcmu_starved_state * 40) ∧
    (pcmu_starved_state.low_water_mark = 0 →
      effective_low_water_mark pcmu_starved_state =
        frame_size pcmu_starved_state * 20) ∧
    frame_size pcmu_starved_state ≠ 0 :=
  effective_thresholds_never_zero pcmu_starved_state

end AudioStream
